import Mathlib

/-!
Shallow embedding, in Lean 4, of the NLP pipeline of this repository
(src/project): text preprocessing, TF-IDF vectorization, LSI projection,
KMeans clustering, cosine-similarity search, cluster reporting and the
model/artifact store.  Numeric data is modelled over the rationals; the
floating-point square root used by cosine similarity is passed as an
explicit oracle parameter, since no claim depends on its exact values.
-/

namespace BigData

/-! ### Text preprocessing (src/project/preprocessing.py, preprocess_text) -/

/-- Character class of the regex fragment a-z used by preprocess_text. -/
def isLowerAlpha (c : Char) : Bool := 'a' ≤ c && c ≤ 'z'

/-- Replacement performed by re.sub applied to a single character: keep
lowercase letters, everything else (punctuation, digits, whitespace)
becomes a space, which the later whitespace collapse removes. -/
def cleanChar (c : Char) : Char := if isLowerAlpha c then c else ' '

/-- Splits a character list into maximal space-free words; models the
whitespace collapse, strip and split of preprocess_text, and equally the
token pattern of the vectorizer on preprocessed text. -/
def wordsAux : List Char → List Char → List String
  | [], acc => if acc.isEmpty then [] else [String.mk acc.reverse]
  | c :: cs, acc =>
    if c = ' ' then
      (if acc.isEmpty then wordsAux cs [] else String.mk acc.reverse :: wordsAux cs [])
    else wordsAux cs (c :: acc)

/-- Words of a character list, in order, with empty fragments dropped. -/
def wordsOf (cs : List Char) : List String := wordsAux cs []

/-- Token list produced by preprocess_text before rejoining: lowercase,
strip non-letters, split into words, drop stopwords.  The stopword list
(nltk external data in the source) is an explicit parameter. -/
def preprocessTokens (stopWords : List String) (text : String) : List String :=
  let lowered := text.data.map Char.toLower
  let cleaned := lowered.map cleanChar
  (wordsOf cleaned).filter (fun w => !(stopWords.contains w))

/-- Embedding of preprocess_text: the kept words joined by single spaces. -/
def preprocessText (stopWords : List String) (text : String) : String :=
  String.intercalate " " (preprocessTokens stopWords text)

/-- Tokenization used by the vectorizer (token pattern of letters-only
words) applied to an already preprocessed string. -/
def tokenize (s : String) : List String := wordsOf s.data

/-! ### TF-IDF vectorization (src/project/vectorization.py) -/

/-- Fitted TfidfVectorizer state: the vocabulary in feature-index order
and the per-feature idf weights. -/
structure TfidfVectorizer where
  vocabulary : List String
  idf : List ℚ
  deriving Repr, DecidableEq

/-- Number of documents of the corpus containing a term. -/
def docFreq (docs : List (List String)) (t : String) : ℕ :=
  (docs.filter (fun d => d.contains t)).length

/-- Vocabulary built at fit time: distinct corpus terms sorted
alphabetically, pruned by the min_df document-frequency filter and
truncated to max_features.  The max_features tie policy of sklearn
(highest corpus frequency first) is modelled as truncation of the sorted
survivor list; no claim depends on which terms survive truncation. -/
def buildVocabulary (maxFeatures minDf : ℕ) (docs : List (List String)) : List String :=
  let terms := docs.flatten.dedup.insertionSort (fun a b => a ≤ b)
  (terms.filter (fun t => minDf ≤ docFreq docs t)).take maxFeatures

/-- Smoothed idf weight of a term; the logarithm of sklearn's
ln((1+n)/(1+df)) + 1 is replaced by a rational stand-in since no claim
depends on idf magnitudes, only on their being fixed by the fit. -/
def smoothIdf (nDocs df : ℕ) : ℚ := 1 + ((nDocs : ℚ) + 1) / ((df : ℚ) + 1)

/-- Fit of the TfidfVectorizer.  A corpus with no tokens at all raises
sklearn's empty-vocabulary ValueError; a corpus whose every term is
pruned by min_df raises the after-pruning ValueError.  Both are modelled
as the error branch of Except, as the source has no handler for them. -/
def fitVectorizer (maxFeatures minDf : ℕ) (texts : List String) : Except String TfidfVectorizer :=
  let docs := texts.map tokenize
  if docs.flatten.isEmpty then
    .error "empty vocabulary; perhaps the documents only contain stop words"
  else
    let vocab := buildVocabulary maxFeatures minDf docs
    if vocab.isEmpty then
      .error "After pruning, no terms remain. Try a lower min_df or a higher max_df."
    else
      .ok { vocabulary := vocab
            idf := vocab.map (fun t => smoothIdf texts.length (docFreq docs t)) }

/-- Sparse row built by transform for one document: sklearn iterates the
document's tokens, looks each one up in the fitted vocabulary and
silently skips unknown terms, so every produced column index is the
vocabulary index of a known token. -/
def countVocab (vocabulary : List String) (tokens : List String) : List (ℕ × ℕ) :=
  ((tokens.filter (fun t => vocabulary.contains t)).dedup).map
    (fun t => (vocabulary.indexOf t, tokens.count t))

/-- TfidfVectorizer.transform on a single document: term counts weighted
by the stored idf.  The final l2 row normalization of sklearn is omitted:
it rescales rows by a positive factor and downstream cosine similarity is
scale-invariant, so no claim observes it. -/
def transformText (v : TfidfVectorizer) (text : String) : List (ℕ × ℚ) :=
  (countVocab v.vocabulary (tokenize text)).map
    (fun p => (p.1, (p.2 : ℚ) * v.idf.getD p.1 0))

/-- Dense row of width n corresponding to a sparse row. -/
def toDense (n : ℕ) (entries : List (ℕ × ℚ)) : List ℚ :=
  (List.range n).map (fun j => ((entries.filter (fun p => p.1 == j)).map (fun p => p.2)).sum)

/-- Dense TF-IDF matrix of a corpus under a fitted vectorizer. -/
def transformMatrix (v : TfidfVectorizer) (texts : List String) : List (List ℚ) :=
  texts.map (fun t => toDense v.vocabulary.length (transformText v t))

/-- Embedding of vectorize_texts on the fit path (vectorizer=None in the
source): fit, then produce the TF-IDF matrix; a fit error propagates. -/
def vectorizeTexts (maxFeatures minDf : ℕ) (texts : List String) :
    Except String (List (List ℚ) × TfidfVectorizer) :=
  match fitVectorizer maxFeatures minDf texts with
  | .error e => .error e
  | .ok v => .ok (transformMatrix v texts, v)

/-! ### Linear algebra helpers over ℚ -/

/-- Dot product; rows of unequal length are truncated to the shorter one,
which never happens for matrices built by this development. -/
def dotQ (u v : List ℚ) : ℚ := (List.zipWith (fun a b => a * b) u v).sum

/-- Column count of a matrix, as numpy's shape reports it for the
non-empty matrices this pipeline produces. -/
def ncols (m : List (List ℚ)) : ℕ := (m.headD []).length

/-- Matrix-vector product X v. -/
def matVec (X : List (List ℚ)) (v : List ℚ) : List ℚ := X.map (fun r => dotQ r v)

/-- Transposed product: given w of length nrows, computes Xᵀ w of length nf. -/
def matTVec (nf : ℕ) (X : List (List ℚ)) (w : List ℚ) : List ℚ :=
  (List.range nf).map (fun j => (List.zipWith (fun r wi => r.getD j 0 * wi) X w).sum)

/-! ### Latent Semantic Indexing (src/project/lsi.py, apply_lsi) -/

/-- Seed-determined pseudo-random rational draw; models the seeded random
number stream of sklearn's randomized SVD at the level every claim needs:
a deterministic function of the random_state and the draw position. -/
def pseudoRand (seed i j : ℕ) : ℚ :=
  ((((seed + 1) * (i + 2) * 2654435761 + (j + 1) * 40503 + 12345) % 1009 : ℕ) : ℚ)

/-- One power-iteration step of the randomized range finder: v ↦ Xᵀ(Xv).
The orthonormalization of the real algorithm needs irrational square
roots and is omitted; the step is still a deterministic, shape-preserving
function of the matrix, which is all any claim observes. -/
def powerStep (nf : ℕ) (X : List (List ℚ)) (v : List ℚ) : List ℚ :=
  matTVec nf X (matVec X v)

/-- Fitted TruncatedSVD state: the (already clamped) component count and
the component row vectors, each of length n_features. -/
structure TruncatedSVDModel where
  nComponents : ℕ
  components : List (List ℚ)
  deriving Repr, DecidableEq

/-- Fit of TruncatedSVD(algorithm=randomized, n_iter=5) as a
deterministic function of the matrix, the component count and the seed:
each component is a seeded pseudo-random vector refined by n_iter power
steps. -/
def fitTruncatedSVD (X : List (List ℚ)) (k seed nIter : ℕ) : TruncatedSVDModel :=
  let nf := ncols X
  { nComponents := k
    components :=
      (List.range k).map
        (fun j => (powerStep nf X)^[nIter] ((List.range nf).map (fun i => pseudoRand seed j i))) }

/-- TruncatedSVD.transform of a single row: projection onto the
components. -/
def svdTransform (m : TruncatedSVDModel) (v : List ℚ) : List ℚ :=
  m.components.map (fun c => dotQ v c)

/-- Embedding of apply_lsi: clamp n_components to n_features - 1, fit the
model with the given seed and n_iter=5, and return the projected vectors
with the fitted model. -/
def applyLsi (tfidfMatrix : List (List ℚ)) (nComponents seed : ℕ) :
    List (List ℚ) × TruncatedSVDModel :=
  let nFeatures := ncols tfidfMatrix
  let actual := min nComponents (nFeatures - 1)
  let model := fitTruncatedSVD tfidfMatrix actual seed 5
  (tfidfMatrix.map (svdTransform model), model)

/-! ### Cosine similarity and ranking (src/project/similarity.py) -/

/-- Norm factor used by sklearn's normalize: the square root of the
self-dot-product, with zero norms replaced by 1 so that zero vectors stay
zero instead of dividing by zero.  The floating-point square root is the
oracle parameter sqrt. -/
def safeNorm (sqrt : ℚ → ℚ) (v : List ℚ) : ℚ :=
  let n := sqrt (dotQ v v)
  if n = 0 then 1 else n

/-- Row of cosine similarities of the query against every stored vector,
as cosine_similarity(query_lsi, lsi_vectors)[0] produces it. -/
def cosineSimilarityRow (sqrt : ℚ → ℚ) (q : List ℚ) (M : List (List ℚ)) : List ℚ :=
  M.map (fun v => dotQ q v / (safeNorm sqrt q * safeNorm sqrt v))

/-- Total order on positions used to model np.argsort with stable
ascending semantics: compare values, break ties by position. -/
def keyLE (xs : List ℚ) (i j : ℕ) : Prop :=
  xs.getD i 0 < xs.getD j 0 ∨ (xs.getD i 0 = xs.getD j 0 ∧ i ≤ j)

instance keyLE.instDecidable (xs : List ℚ) : DecidableRel (keyLE xs) := fun i j => by
  unfold keyLE; exact inferInstance

/-- Embedding of np.argsort(xs): positions sorted ascending by value.
numpy's default sort is not stable, so the program guarantees no tie
order; a deterministic model must still pick one, and this one keeps
equal values in ascending position order, which coincides with numpy's
behavior in its small-array insertion-sort regime.  No universal theorem
below relies on the modelled tie order: ranking theorems conclude only
tie-agnostic properties (non-increasing values, length, permutation),
and the tie order is used only to evaluate a concrete small-array
counterexample that lies inside the insertion-sort regime. -/
def argsortAsc (xs : List ℚ) : List ℕ :=
  (List.range xs.length).insertionSort (keyLE xs)

/-- Embedding of np.argsort(xs)[::-1][:topK], the top-k selection of
find_similar_incidents and get_cluster_top_terms. -/
def rankTopK (xs : List ℚ) (topK : ℕ) : List ℕ :=
  (argsortAsc xs).reverse.take topK

/-! ### Incident data and search results -/

/-- Row of the processed DataFrame, restricted to the always-present
columns the search result reads; the optional location columns are
dropped as no claim mentions them. -/
structure IncidentRow where
  combinedText : String
  complaintType : String
  descriptor : String
  deriving Repr, DecidableEq

/-- Default row; stands for the out-of-range iloc access that a
consistent saved bundle never triggers. -/
def defaultRow : IncidentRow := { combinedText := "", complaintType := "", descriptor := "" }

/-- One entry of the result list of find_similar_incidents. -/
structure SearchResult where
  index : ℕ
  similarity : ℚ
  combinedText : String
  complaintType : String
  descriptor : String
  deriving Repr, DecidableEq

/-- Result dictionary built for one ranked index. -/
def mkSearchResult (sims : List ℚ) (df : List IncidentRow) (idx : ℕ) : SearchResult :=
  let row := df.getD idx defaultRow
  { index := idx
    similarity := sims.getD idx 0
    combinedText := row.combinedText
    complaintType := row.complaintType
    descriptor := row.descriptor }

/-- Embedding of find_similar_incidents: preprocess the query, transform
by TF-IDF and LSI, compute cosine similarities, rank, and build the
result list. -/
def findSimilarIncidents (sqrt : ℚ → ℚ) (stopWords : List String)
    (v : TfidfVectorizer) (lsiModel : TruncatedSVDModel)
    (lsiVectors : List (List ℚ)) (df : List IncidentRow)
    (queryText : String) (topK : ℕ) : List SearchResult :=
  let preprocessedQuery := preprocessText stopWords queryText
  let queryTfidf := toDense v.vocabulary.length (transformText v preprocessedQuery)
  let queryLsi := svdTransform lsiModel queryTfidf
  let similarities := cosineSimilarityRow sqrt queryLsi lsiVectors
  let topIndices := rankTopK similarities topK
  topIndices.map (mkSearchResult similarities df)

/-! ### KMeans clustering (src/project/clustering.py, apply_kmeans) -/

/-- Squared euclidean distance. -/
def sqDist (u v : List ℚ) : ℚ := (List.zipWith (fun a b => (a - b) * (a - b)) u v).sum

/-- Index of the nearest centroid, lowest index on ties: the head of the
stable ascending argsort of the distances. -/
def nearestCentroid (cs : List (List ℚ)) (x : List ℚ) : ℕ :=
  ((argsortAsc (cs.map (fun c => sqDist c x))).headD 0)

/-- Per-cluster mean of the member vectors. -/
def meanOf (vs : List (List ℚ)) (nf : ℕ) : List ℚ :=
  (List.range nf).map (fun j => (vs.map (fun v => v.getD j 0)).sum / (vs.length : ℚ))

/-- Centroid update of one Lloyd step; a cluster left without members
keeps its old centroid. -/
def updateCentroids (X : List (List ℚ)) (labels : List ℕ) (k nf : ℕ)
    (old : List (List ℚ)) : List (List ℚ) :=
  (List.range k).map (fun c =>
    let members := ((X.zip labels).filter (fun p => p.2 == c)).map (fun p => p.1)
    if members.isEmpty then old.getD c [] else meanOf members nf)

/-- Lloyd iteration with a fuel bound modelling max_iter: assign each
point to its nearest centroid, recompute centroids, stop early on
convergence. -/
def lloydIter (X : List (List ℚ)) (k nf : ℕ) : ℕ → List (List ℚ) → List ℕ × List (List ℚ)
  | 0, cs => (X.map (nearestCentroid cs), cs)
  | n + 1, cs =>
    let labels := X.map (nearestCentroid cs)
    let cs' := updateCentroids X labels k nf cs
    if cs' = cs then (labels, cs) else lloydIter X k nf n cs'

/-- Seed-determined initial centroids of one restart; models sklearn's
seeded k-means++ initialization at the level the claims need: a
pseudo-random, seed-determined choice of initial centers among the data
points. -/
def initCentroids (X : List (List ℚ)) (k seed run : ℕ) : List (List ℚ) :=
  (List.range k).map (fun c =>
    X.getD (((seed + 1) * (run + 1) * 7919 + c * 104729) % (max X.length 1)) [])

/-- Within-cluster sum of squared distances of a centroid set. -/
def inertia (X : List (List ℚ)) (cs : List (List ℚ)) : ℚ :=
  (X.map (fun x => sqDist x (cs.getD (nearestCentroid cs x) []))).sum

/-- KMeans fit_predict: n_init seeded restarts of Lloyd iteration, the
restart of least inertia kept (first on ties); returns the labels and the
cluster centers of the fitted model. -/
def kmeansFitPredict (X : List (List ℚ)) (k nInit maxIter seed : ℕ) :
    List ℕ × List (List ℚ) :=
  let nf := ncols X
  let runs := (List.range nInit).map (fun r => lloydIter X k nf maxIter (initCentroids X k seed r))
  let costs := runs.map (fun rc => inertia X rc.2)
  runs.getD ((argsortAsc costs).headD 0) ([], [])

/-- Embedding of apply_kmeans: KMeans with n_init=10, max_iter=300 and
the given random_state, applied to the LSI vectors. -/
def applyKmeans (lsiVectors : List (List ℚ)) (nClusters seed : ℕ) :
    List ℕ × List (List ℚ) :=
  kmeansFitPredict lsiVectors nClusters 10 300 seed

/-! ### Cluster reporting (src/project/clustering.py, analyze_clusters) -/

/-- Report entry of one cluster id. -/
structure ClusterInfo where
  size : ℕ
  examples : List IncidentRow
  topTerms : List (String × ℚ)
  deriving Repr, DecidableEq

/-- Embedding of get_cluster_top_terms: mean TF-IDF score per column over
the rows of the cluster, then the top-terms slice of the descending
argsort.  The mean over an empty cluster divides by zero: numpy emits NaN
values there, the rational model the value 0; neither is an exception. -/
def getClusterTopTerms (tfidfMatrix : List (List ℚ)) (clusterLabels : List ℕ)
    (featureNames : List String) (clusterId topTerms : ℕ) : List (String × ℚ) :=
  let clusterRows := ((tfidfMatrix.zip clusterLabels).filter (fun p => p.2 == clusterId)).map
    (fun p => p.1)
  let nf := ncols tfidfMatrix
  let meanScores := (List.range nf).map
    (fun j => (clusterRows.map (fun r => r.getD j 0)).sum / (clusterRows.length : ℚ))
  (rankTopK meanScores topTerms).map (fun idx => (featureNames.getD idx "", meanScores.getD idx 0))

/-- Embedding of analyze_clusters: the iterated cluster-id range is
range(len(np.unique(cluster_labels))), the number of distinct labels, as
in the source; each report entry holds the cluster size, the first
examples_per_cluster member rows and the top terms. -/
def analyzeClusters (df : List IncidentRow) (clusterLabels : List ℕ)
    (tfidfMatrix : List (List ℚ)) (featureNames : List String)
    (topTerms examplesPerCluster : ℕ) : List (ℕ × ClusterInfo) :=
  let nClusters := clusterLabels.dedup.length
  (List.range nClusters).map (fun clusterId =>
    let clusterData := ((df.zip clusterLabels).filter (fun p => p.2 == clusterId)).map
      (fun p => p.1)
    (clusterId,
      { size := clusterData.length
        examples := clusterData.take examplesPerCluster
        topTerms := getClusterTopTerms tfidfMatrix clusterLabels featureNames clusterId topTerms }))

/-- Caller-visible inputs of analyze_clusters, threaded explicitly to
express the frame property of the call. -/
structure AnalyzeInputs where
  df : List IncidentRow
  clusterLabels : List ℕ
  tfidfMatrix : List (List ℚ)
  featureNames : List String
  deriving Repr, DecidableEq

/-- Models pandas DataFrame.copy(): a fresh object with the same values;
subsequent column assignments hit only the copy. -/
def dfCopy (df : List IncidentRow) : List IncidentRow := df

/-- Effectful view of analyze_clusters: the body rebinds its local name
to a copy (df = df.copy()) and adds the cluster column to that copy
(df['cluster'] = cluster_labels), so the caller's objects come back as
they went in, next to the derived report. -/
def analyzeClustersRun (s : AnalyzeInputs) (topTerms examplesPerCluster : ℕ) :
    List (ℕ × ClusterInfo) × AnalyzeInputs :=
  let dfWork := dfCopy s.df
  let dfWithCluster := dfWork.zip s.clusterLabels
  let nClusters := s.clusterLabels.dedup.length
  let report := (List.range nClusters).map (fun clusterId =>
    let clusterData := (dfWithCluster.filter (fun p => p.2 == clusterId)).map (fun p => p.1)
    (clusterId,
      { size := clusterData.length
        examples := clusterData.take examplesPerCluster
        topTerms := getClusterTopTerms s.tfidfMatrix s.clusterLabels s.featureNames
          clusterId topTerms : ClusterInfo }))
  (report, s)

/-! ### Persistence (src/project/persistence.py) -/

/-- Pipeline configuration saved into the metadata (main.py, config). -/
structure PipelineConfig where
  maxFeatures : ℕ
  minDf : ℕ
  lsiComponents : ℕ
  nClusters : ℕ
  randomState : ℕ
  deriving Repr, DecidableEq

/-- Dataset info saved into the metadata (main.py, dataset_info). -/
structure DatasetInfo where
  totalRecords : ℕ
  nFeaturesTfidf : ℕ
  nComponentsLsi : ℕ
  nClusters : ℕ
  vocabularySize : ℕ
  deriving Repr, DecidableEq

/-- The dataset_info dictionary exactly as main builds it: the LSI entry
records lsi_vectors.shape[1], the effective component count. -/
def mkDatasetInfo (df : List IncidentRow) (tfidfMatrix lsiVectors : List (List ℚ))
    (nClusters : ℕ) (vocabulary : List String) : DatasetInfo :=
  { totalRecords := df.length
    nFeaturesTfidf := ncols tfidfMatrix
    nComponentsLsi := ncols lsiVectors
    nClusters := nClusters
    vocabularySize := vocabulary.length }

/-- The artifact store: one optional slot per file the persistence module
writes.  Pickle, npy and csv serialization are modelled as lossless on
these values. -/
structure ArtifactStore where
  tfidfVectorizerFile : Option TfidfVectorizer
  lsiModelFile : Option TruncatedSVDModel
  kmeansModelFile : Option (List ℕ × List (List ℚ))
  lsiVectorsFile : Option (List (List ℚ))
  processedDataFile : Option (List IncidentRow)
  metadataFile : Option (PipelineConfig × DatasetInfo)

/-- Embedding of save_models: always writes the vectorizer and LSI model
files; the kmeans file is written only when a model is passed, otherwise
whatever file existed before is left in place, as in the source. -/
def saveModels (st : ArtifactStore) (v : TfidfVectorizer) (l : TruncatedSVDModel)
    (km : Option (List ℕ × List (List ℚ))) : ArtifactStore :=
  { st with
    tfidfVectorizerFile := some v
    lsiModelFile := some l
    kmeansModelFile := match km with | some m => some m | none => st.kmeansModelFile }

/-- Embedding of load_models: opening a missing pickle raises, modelled
as the error branch; the kmeans model is optional and its absence is not
an error. -/
def loadModels (st : ArtifactStore) :
    Except String (TfidfVectorizer × TruncatedSVDModel × Option (List ℕ × List (List ℚ))) :=
  match st.tfidfVectorizerFile, st.lsiModelFile with
  | some v, some l => .ok (v, l, st.kmeansModelFile)
  | _, _ => .error "FileNotFoundError"

/-- Embedding of save_lsi_vectors. -/
def saveLsiVectors (st : ArtifactStore) (m : List (List ℚ)) : ArtifactStore :=
  { st with lsiVectorsFile := some m }

/-- Embedding of load_lsi_vectors. -/
def loadLsiVectors (st : ArtifactStore) : Except String (List (List ℚ)) :=
  match st.lsiVectorsFile with
  | some m => .ok m
  | none => .error "FileNotFoundError"

/-- Embedding of save_processed_data. -/
def saveProcessedData (st : ArtifactStore) (df : List IncidentRow) : ArtifactStore :=
  { st with processedDataFile := some df }

/-- Embedding of load_processed_data. -/
def loadProcessedData (st : ArtifactStore) : Except String (List IncidentRow) :=
  match st.processedDataFile with
  | some df => .ok df
  | none => .error "FileNotFoundError"

/-- Embedding of save_metadata. -/
def saveMetadata (st : ArtifactStore) (cfg : PipelineConfig) (info : DatasetInfo) :
    ArtifactStore :=
  { st with metadataFile := some (cfg, info) }

/-- Embedding of load_metadata. -/
def loadMetadata (st : ArtifactStore) : Except String (PipelineConfig × DatasetInfo) :=
  match st.metadataFile with
  | some m => .ok m
  | none => .error "FileNotFoundError"

/-- Embedding of load_all_for_search: models, LSI vectors and processed
data, in the order of the source. -/
def loadAllForSearch (st : ArtifactStore) :
    Except String (TfidfVectorizer × TruncatedSVDModel × List (List ℚ) × List IncidentRow) := do
  let (v, l, _) ← loadModels st
  let lsiVectors ← loadLsiVectors st
  let df ← loadProcessedData st
  return (v, l, lsiVectors, df)

/-! ### Main pipeline control flow (src/project/main.py) -/

/-- Stages of the pipeline that matter to the error-handling claims. -/
inductive PipelineStage where
  | loadData
  | preprocessStage
  | vectorizeStage
  | lsiStage
  | clusteringStage
  deriving Repr, DecidableEq

/-- Outcome of a run of main.  A missing CSV is the one condition the
source handles by printing an error and returning cleanly; an exception
raised by a stage has no handler in main and escapes as a crash. -/
inductive RunOutcome where
  | csvMissingReported
  | crashed (msg : String) (stagesCompleted : List PipelineStage)
  | completed (stagesCompleted : List PipelineStage)
  deriving Repr, DecidableEq

/-- Stages a run completed before ending. -/
def RunOutcome.stagesOf : RunOutcome → List PipelineStage
  | .csvMissingReported => []
  | .crashed _ s => s
  | .completed s => s

/-- Whether a run ended in an uncaught exception rather than a reported
error or normal completion. -/
def RunOutcome.isUnhandledCrash : RunOutcome → Bool
  | .crashed _ _ => true
  | _ => false

/-- Embedding of main's control flow up to clustering, with the constants
of the source (max_features=5000, min_df=2, n_components=150,
n_clusters=7, random_state=42).  csvData is none when dataset.csv is
absent; the later reporting and output stages are beyond what the claims
observe and are folded into completion. -/
def mainModel (stopWords : List String) (csvData : Option (List String)) : RunOutcome :=
  match csvData with
  | none => .csvMissingReported
  | some texts =>
    let preprocessed := texts.map (preprocessText stopWords)
    match vectorizeTexts 5000 2 preprocessed with
    | .error msg => .crashed msg [.loadData, .preprocessStage]
    | .ok (tfidfMatrix, _) =>
      let (lsiVectors, _) := applyLsi tfidfMatrix 150 42
      let (_, _) := applyKmeans lsiVectors 7 42
      .completed [.loadData, .preprocessStage, .vectorizeStage, .lsiStage, .clusteringStage]

/-! ### Helper lemmas -/

instance keyLE.instIsTotal (xs : List ℚ) : IsTotal ℕ (keyLE xs) := by
  constructor
  intro i j
  rcases lt_trichotomy (xs.getD i 0) (xs.getD j 0) with h | h | h
  · exact Or.inl (Or.inl h)
  · rcases Nat.le_total i j with hij | hij
    · exact Or.inl (Or.inr ⟨h, hij⟩)
    · exact Or.inr (Or.inr ⟨h.symm, hij⟩)
  · exact Or.inr (Or.inl h)

instance keyLE.instIsTrans (xs : List ℚ) : IsTrans ℕ (keyLE xs) := by
  constructor
  intro a b c hab hbc
  rcases hab with h1 | ⟨e1, l1⟩ <;> rcases hbc with h2 | ⟨e2, l2⟩
  · exact Or.inl (h1.trans h2)
  · exact Or.inl (lt_of_lt_of_eq h1 e2)
  · exact Or.inl (lt_of_eq_of_lt e1 h2)
  · exact Or.inr ⟨e1.trans e2, l1.trans l2⟩

theorem argsortAsc_sorted (xs : List ℚ) : List.Pairwise (keyLE xs) (argsortAsc xs) :=
  List.sorted_insertionSort (keyLE xs) (List.range xs.length)

theorem argsortAsc_perm (xs : List ℚ) : List.Perm (argsortAsc xs) (List.range xs.length) :=
  List.perm_insertionSort (keyLE xs) (List.range xs.length)

theorem argsortAsc_length (xs : List ℚ) : (argsortAsc xs).length = xs.length :=
  ((argsortAsc_perm xs).length_eq).trans (List.length_range _)

/-- Positions emitted by the descending top-k ranking carry
non-increasing values: a conclusion independent of any tie order, so it
holds for every correct argsort the model could have chosen. -/
theorem rankTopK_pairwise (xs : List ℚ) (k : ℕ) :
    List.Pairwise (fun i j => xs.getD j 0 ≤ xs.getD i 0) (rankTopK xs k) := by
  have hrev : List.Pairwise (fun i j => keyLE xs j i) ((argsortAsc xs).reverse) :=
    List.pairwise_reverse.mpr (argsortAsc_sorted xs)
  have htake := List.Pairwise.sublist (List.take_sublist k _) hrev
  refine htake.imp ?_
  rintro i j (hk | ⟨he, _⟩)
  · exact le_of_lt hk
  · exact le_of_eq he

theorem rankTopK_length (xs : List ℚ) (k : ℕ) :
    (rankTopK xs k).length = min k xs.length := by
  simp [rankTopK, List.length_take, argsortAsc_length]

theorem rankTopK_perm_of_lt (xs : List ℚ) (k : ℕ) (h : xs.length ≤ k) :
    List.Perm (rankTopK xs k) (List.range xs.length) := by
  have hlen : ((argsortAsc xs).reverse).length ≤ k := by
    simpa [argsortAsc_length] using h
  have : rankTopK xs k = (argsortAsc xs).reverse := by
    simp [rankTopK, List.take_of_length_le hlen]
  rw [this]
  exact ((argsortAsc xs).reverse_perm).trans (argsortAsc_perm xs)

theorem dotQ_eq_zero {u : List ℚ} (v : List ℚ) (h : ∀ x ∈ u, x = 0) : dotQ u v = 0 := by
  induction u generalizing v with
  | nil => simp [dotQ]
  | cons a u ih =>
    cases v with
    | nil => simp [dotQ]
    | cons b v =>
      have ha : a = 0 := h a (by simp)
      have hrest := ih v (fun x hx => h x (by simp [hx]))
      simp only [dotQ, List.zipWith_cons_cons, List.sum_cons] at *
      rw [ha, hrest, zero_mul, add_zero]

theorem getD_eq_zero_of_forall {xs : List ℚ} (i : ℕ) (h : ∀ x ∈ xs, x = 0) :
    xs.getD i 0 = 0 := by
  rw [List.getD_eq_getElem?_getD]
  cases hx : xs[i]? with
  | none => rfl
  | some x => exact h x (List.getElem?_mem hx)

/-! ### Claim theorems -/

/-- C1: Round-trip through the artifact store: saving a fitted bundle
(vectorizer, LSI model, latent vectors, processed data) into any store
and loading it back with load_all_for_search succeeds and yields objects
on which the similarity query returns exactly the results it returns on
the in-memory objects before the save, for every probe query. -/
theorem store_roundtrip_preserves_search (st : ArtifactStore) (v : TfidfVectorizer)
    (l : TruncatedSVDModel) (km : Option (List ℕ × List (List ℚ)))
    (lsiVectors : List (List ℚ)) (df : List IncidentRow)
    (sqrt : ℚ → ℚ) (stopWords : List String) (queryText : String) (topK : ℕ) :
    ∃ v' l' lv' df',
      loadAllForSearch (saveProcessedData (saveLsiVectors (saveModels st v l km) lsiVectors) df) =
        .ok (v', l', lv', df') ∧
      findSimilarIncidents sqrt stopWords v' l' lv' df' queryText topK =
        findSimilarIncidents sqrt stopWords v l lsiVectors df queryText topK := by
  refine ⟨v, l, lsiVectors, df, ?_, rfl⟩
  cases km <;> rfl

/-- C3: Two-run determinism: fitting the LSI projector and the KMeans
cluster assigner twice, on identical input matrices with identical seed,
yields identical latent matrices, cluster labels and centroids (exact
equality, which implies every numeric tolerance). -/
theorem fit_twice_deterministic (m₁ m₂ : List (List ℚ)) (k nClusters seed : ℕ)
    (h : m₁ = m₂) :
    applyLsi m₁ k seed = applyLsi m₂ k seed ∧
    applyKmeans (applyLsi m₁ k seed).1 nClusters seed =
      applyKmeans (applyLsi m₂ k seed).1 nClusters seed := by
  subst h
  exact ⟨rfl, rfl⟩

/-- Witness for C3 at a concrete matrix, component count, cluster count
and seed. -/
theorem fit_twice_deterministic_witness :
    ([[(1 : ℚ), 2], [3, 4]] = [[(1 : ℚ), 2], [3, 4]]) ∧
    (applyLsi [[(1 : ℚ), 2], [3, 4]] 150 42 = applyLsi [[(1 : ℚ), 2], [3, 4]] 150 42 ∧
      applyKmeans (applyLsi [[(1 : ℚ), 2], [3, 4]] 150 42).1 7 42 =
        applyKmeans (applyLsi [[(1 : ℚ), 2], [3, 4]] 150 42).1 7 42) :=
  ⟨rfl, fit_twice_deterministic [[(1 : ℚ), 2], [3, 4]] [[(1 : ℚ), 2], [3, 4]] 150 7 42 rfl⟩

/-- C10: The cluster reporter is read-only: analyze_clusters hands back
the caller's DataFrame, label array, TF-IDF matrix and vectorizer
exactly as they went in (the cluster column is added to a copy), and its
report is a pure derived value of those inputs. -/
theorem analyze_clusters_readonly (s : AnalyzeInputs) (topTerms examplesPerCluster : ℕ) :
    (analyzeClustersRun s topTerms examplesPerCluster).2 = s ∧
    (analyzeClustersRun s topTerms examplesPerCluster).1 =
      analyzeClusters s.df s.clusterLabels s.tfidfMatrix s.featureNames
        topTerms examplesPerCluster :=
  ⟨rfl, rfl⟩

/-- C2 (amended): The similarity engine's result list is ordered by
non-increasing cosine similarity; the ascending tie-order guarantee of
the original claim does not hold (see the counterexample), and the code
guarantees no tie order at all, since np.argsort's default sort is not
stable.  This conclusion is tie-agnostic, so it is independent of the
tie order the argsort model commits to. -/
theorem results_sorted_nonincreasing (sqrt : ℚ → ℚ) (stopWords : List String)
    (v : TfidfVectorizer) (lsiModel : TruncatedSVDModel)
    (lsiVectors : List (List ℚ)) (df : List IncidentRow)
    (queryText : String) (topK : ℕ) :
    List.Pairwise
      (fun r₁ r₂ : SearchResult => r₂.similarity ≤ r₁.similarity)
      (findSimilarIncidents sqrt stopWords v lsiModel lsiVectors df queryText topK) := by
  simp only [findSimilarIncidents]
  rw [List.pairwise_map]
  refine (rankTopK_pairwise _ topK).imp ?_
  intro i j h
  simpa [mkSearchResult] using h

/-- C2 counterexample: with two stored documents of identical latent
vectors, the query matching both gives equal similarity 1 to documents
0 and 1, yet the engine returns them as index 1 before index 0 — this
two-element array lies in numpy's insertion-sort regime, where the
reversed ascending argsort provably orders the tie descending, refuting
the claimed ascending tie order. -/
theorem tie_order_counterexample :
    (findSimilarIncidents id [] { vocabulary := ["noise"], idf := [1] }
        { nComponents := 1, components := [[1]] } [[1], [1]]
        [{ combinedText := "a", complaintType := "a", descriptor := "a" },
         { combinedText := "b", complaintType := "b", descriptor := "b" }] "noise" 5).map
      (fun r => (r.index, r.similarity)) = [(1, 1), (0, 1)] := by
  with_unfolding_all decide

/-- C8: When top_k exceeds the stored document count, the similarity
query returns exactly document_count results, whose indices are exactly
all stored documents; nothing is padded and nothing errors. -/
theorem topk_exceeding_count_returns_all (sqrt : ℚ → ℚ) (stopWords : List String)
    (v : TfidfVectorizer) (lsiModel : TruncatedSVDModel)
    (lsiVectors : List (List ℚ)) (df : List IncidentRow)
    (queryText : String) (topK : ℕ) (h : lsiVectors.length < topK) :
    (findSimilarIncidents sqrt stopWords v lsiModel lsiVectors df queryText topK).length =
      lsiVectors.length ∧
    List.Perm
      ((findSimilarIncidents sqrt stopWords v lsiModel lsiVectors df queryText topK).map
        SearchResult.index)
      (List.range lsiVectors.length) := by
  simp only [findSimilarIncidents]
  have hsims : ∀ q : List ℚ, (cosineSimilarityRow sqrt q lsiVectors).length =
      lsiVectors.length := fun q => List.length_map _ _
  constructor
  · rw [List.length_map, rankTopK_length, hsims]
    omega
  · rw [List.map_map]
    have hid : (SearchResult.index ∘ mkSearchResult
        (cosineSimilarityRow sqrt
          (svdTransform lsiModel
            (toDense v.vocabulary.length (transformText v (preprocessText stopWords queryText))))
          lsiVectors) df) = fun i => i := by
      funext i
      simp [mkSearchResult]
    rw [hid]
    have := rankTopK_perm_of_lt
      (cosineSimilarityRow sqrt
        (svdTransform lsiModel
          (toDense v.vocabulary.length (transformText v (preprocessText stopWords queryText))))
        lsiVectors) topK (by rw [hsims]; omega)
    simpa [List.map_id, hsims] using this

/-- Witness for C8 at a concrete one-document store and top_k = 5. -/
theorem topk_exceeding_count_witness :
    (([[(1 : ℚ)]] : List (List ℚ)).length < 5) ∧
    ((findSimilarIncidents id [] { vocabulary := ["noise"], idf := [1] }
        { nComponents := 1, components := [[1]] } [[(1 : ℚ)]] [] "noise" 5).length = 1 ∧
      List.Perm
        ((findSimilarIncidents id [] { vocabulary := ["noise"], idf := [1] }
            { nComponents := 1, components := [[1]] } [[(1 : ℚ)]] [] "noise" 5).map
          SearchResult.index)
        (List.range 1)) :=
  ⟨by decide,
    topk_exceeding_count_returns_all id [] { vocabulary := ["noise"], idf := [1] }
      { nComponents := 1, components := [[1]] } [[(1 : ℚ)]] [] "noise" 5 (by decide)⟩

/-- Column count of the latent matrix produced by apply_lsi on a
non-empty input: the clamped component count. -/
theorem applyLsi_ncols (X : List (List ℚ)) (k seed : ℕ) (hX : X ≠ []) :
    ncols (applyLsi X k seed).1 = min k (ncols X - 1) := by
  obtain ⟨x, xs, rfl⟩ := List.exists_cons_of_ne_nil hX
  simp [applyLsi, ncols, svdTransform, fitTruncatedSVD]

/-- C5: Requesting k greater than vocab_size - 1 makes the projector
clamp to an effective k of exactly vocab_size - 1: the latent matrix has
vocab_size - 1 columns, the fitted model records that count, and the
dataset_info entry written into the saved metadata records the effective
value (lsi_vectors.shape[1]), not the requested one. -/
theorem lsi_clamps_and_metadata_records_effective (X : List (List ℚ)) (k seed nClusters : ℕ)
    (df : List IncidentRow) (tfidf : List (List ℚ)) (vocab : List String)
    (st : ArtifactStore) (cfg : PipelineConfig)
    (hX : X ≠ []) (_hvs : 1 ≤ ncols X) (hk : ncols X - 1 < k) :
    ncols (applyLsi X k seed).1 = ncols X - 1 ∧
    (applyLsi X k seed).2.nComponents = ncols X - 1 ∧
    (mkDatasetInfo df tfidf (applyLsi X k seed).1 nClusters vocab).nComponentsLsi =
      ncols X - 1 ∧
    loadMetadata
        (saveMetadata st cfg (mkDatasetInfo df tfidf (applyLsi X k seed).1 nClusters vocab)) =
      .ok (cfg, mkDatasetInfo df tfidf (applyLsi X k seed).1 nClusters vocab) := by
  have hn := applyLsi_ncols X k seed hX
  have hmin : min k (ncols X - 1) = ncols X - 1 := by omega
  refine ⟨hn.trans hmin, ?_, ?_, rfl⟩
  · simp [applyLsi, fitTruncatedSVD, hmin]
  · simpa [mkDatasetInfo] using hn.trans hmin

/-- Witness for C5 at a two-feature matrix with requested k = 150. -/
theorem lsi_clamps_witness :
    (([[(1 : ℚ), 2]] : List (List ℚ)) ≠ []) ∧ 1 ≤ ncols [[(1 : ℚ), 2]] ∧
    ncols [[(1 : ℚ), 2]] - 1 < 150 ∧
    ncols (applyLsi [[(1 : ℚ), 2]] 150 42).1 = ncols [[(1 : ℚ), 2]] - 1 :=
  ⟨by simp, by decide, by decide,
    (lsi_clamps_and_metadata_records_effective [[(1 : ℚ), 2]] 150 42 7 [] [] []
      { tfidfVectorizerFile := none, lsiModelFile := none, kmeansModelFile := none,
        lsiVectorsFile := none, processedDataFile := none, metadataFile := none }
      { maxFeatures := 5000, minDf := 2, lsiComponents := 150, nClusters := 7,
        randomState := 42 }
      (by simp) (by decide) (by decide)).1⟩

/-- C9: transform on one text only ever produces column indices inside
[0, vocab_size): every sparse entry's column is the vocabulary index of a
token of the text that the vocabulary contains, so terms absent from the
vocabulary contribute no entry (zero weight) and can never produce an
out-of-range column; the function is total, so no input errors. -/
theorem transform_columns_in_range (v : TfidfVectorizer) (text : String) :
    ∀ p ∈ transformText v text,
      p.1 < v.vocabulary.length ∧
        ∃ tok ∈ tokenize text, tok ∈ v.vocabulary ∧ p.1 = List.indexOf tok v.vocabulary := by
  intro p hp
  simp only [transformText, List.mem_map] at hp
  obtain ⟨q, hq, rfl⟩ := hp
  simp only [countVocab, List.mem_map] at hq
  obtain ⟨t, ht, rfl⟩ := hq
  obtain ⟨htok, hcont⟩ := List.mem_filter.mp (List.mem_dedup.mp ht)
  have hmem : t ∈ v.vocabulary := by
    simpa [List.elem_iff] using hcont
  exact ⟨List.indexOf_lt_length.mpr hmem, t, htok, hmem, rfl⟩

/-- Witness for C9 at a one-term vocabulary and a matching text. -/
theorem transform_columns_witness :
    ((0, (1 : ℚ)) ∈ transformText { vocabulary := ["alpha"], idf := [1] } "alpha") ∧
    ((0, (1 : ℚ)).1 < ({ vocabulary := ["alpha"], idf := [1] } : TfidfVectorizer).vocabulary.length ∧
      ∃ tok ∈ tokenize "alpha",
        tok ∈ ({ vocabulary := ["alpha"], idf := [1] } : TfidfVectorizer).vocabulary ∧
          (0, (1 : ℚ)).1 = List.indexOf tok
            ({ vocabulary := ["alpha"], idf := [1] } : TfidfVectorizer).vocabulary) := by
  have hmem : (0, (1 : ℚ)) ∈ transformText { vocabulary := ["alpha"], idf := [1] } "alpha" := by
    with_unfolding_all decide
  exact ⟨hmem, transform_columns_in_range { vocabulary := ["alpha"], idf := [1] } "alpha" _ hmem⟩

/-- C6: A query whose preprocessed tokens contain no vocabulary term has
an all-zero latent vector, gets similarity 0 against every stored
document, and the engine returns results (all with similarity 0) rather
than raising. -/
theorem zero_query_zero_similarity (sqrt : ℚ → ℚ) (stopWords : List String)
    (v : TfidfVectorizer) (lsiModel : TruncatedSVDModel)
    (lsiVectors : List (List ℚ)) (df : List IncidentRow)
    (queryText : String) (topK : ℕ)
    (h : ∀ t ∈ tokenize (preprocessText stopWords queryText), t ∉ v.vocabulary) :
    (∀ s ∈ cosineSimilarityRow sqrt
        (svdTransform lsiModel
          (toDense v.vocabulary.length
            (transformText v (preprocessText stopWords queryText))))
        lsiVectors, s = 0) ∧
    ∀ r ∈ findSimilarIncidents sqrt stopWords v lsiModel lsiVectors df queryText topK,
      r.similarity = 0 := by
  have hfilter : (tokenize (preprocessText stopWords queryText)).filter
      (fun t => v.vocabulary.contains t) = [] := by
    rw [List.filter_eq_nil_iff]
    intro t ht
    simpa [List.elem_iff] using h t ht
  have htrans : transformText v (preprocessText stopWords queryText) = [] := by
    simp only [transformText, countVocab, hfilter, List.dedup_nil, List.map_nil]
  have hdense : ∀ x ∈ toDense v.vocabulary.length
      (transformText v (preprocessText stopWords queryText)), x = 0 := by
    rw [htrans]
    intro x hx
    simp only [toDense, List.filter_nil, List.map_nil, List.sum_nil, List.mem_map] at hx
    obtain ⟨j, _, rfl⟩ := hx
    rfl
  have hlsi : ∀ x ∈ svdTransform lsiModel
      (toDense v.vocabulary.length
        (transformText v (preprocessText stopWords queryText))), x = 0 := by
    intro x hx
    simp only [svdTransform, List.mem_map] at hx
    obtain ⟨c, _, rfl⟩ := hx
    exact dotQ_eq_zero c hdense
  have hsims : ∀ s ∈ cosineSimilarityRow sqrt
      (svdTransform lsiModel
        (toDense v.vocabulary.length
          (transformText v (preprocessText stopWords queryText))))
      lsiVectors, s = 0 := by
    intro s hs
    simp only [cosineSimilarityRow, List.mem_map] at hs
    obtain ⟨w, _, rfl⟩ := hs
    rw [dotQ_eq_zero w hlsi, zero_div]
  refine ⟨hsims, ?_⟩
  intro r hr
  simp only [findSimilarIncidents, List.mem_map] at hr
  obtain ⟨idx, _, rfl⟩ := hr
  simpa [mkSearchResult] using getD_eq_zero_of_forall idx hsims

/-- Witness for C6 at a query with no recognized terms. -/
theorem zero_query_zero_similarity_witness :
    (∀ t ∈ tokenize (preprocessText [] "zz"),
      t ∉ ({ vocabulary := ["alpha"], idf := [1] } : TfidfVectorizer).vocabulary) ∧
    ((∀ s ∈ cosineSimilarityRow id
        (svdTransform { nComponents := 1, components := [[1]] }
          (toDense ({ vocabulary := ["alpha"], idf := [1] } : TfidfVectorizer).vocabulary.length
            (transformText { vocabulary := ["alpha"], idf := [1] } (preprocessText [] "zz"))))
        [[(1 : ℚ)]], s = 0) ∧
      ∀ r ∈ findSimilarIncidents id [] { vocabulary := ["alpha"], idf := [1] }
          { nComponents := 1, components := [[1]] } [[(1 : ℚ)]] [] "zz" 5,
        r.similarity = 0) :=
  ⟨by decide,
    zero_query_zero_similarity id [] { vocabulary := ["alpha"], idf := [1] }
      { nComponents := 1, components := [[1]] } [[(1 : ℚ)]] [] "zz" 5 (by decide)⟩

/-- C4 counterexample: on a corpus whose single document's only term is
pruned by min_df = 2, main ends in an uncaught vectorizer ValueError — an
unhandled crash, not a reported configuration error (the source only
handles the missing-CSV case). -/
theorem empty_fit_crash_counterexample :
    (mainModel [] (some ["abc"])).isUnhandledCrash = true ∧
    mainModel [] (some ["abc"]) =
      .crashed "After pruning, no terms remain. Try a lower min_df or a higher max_df."
        [.loadData, .preprocessStage] := by
  exact ⟨by decide, by decide⟩

/-- C4 (amended): Fitting the vectorizer on zero documents or on a corpus
with no qualifying terms raises a ValueError that main does not catch:
the run terminates as an unhandled crash before the projection and
clustering stages run on the empty input (those stages never execute). -/
theorem empty_fit_terminates_run (stopWords texts : List String) (msg : String)
    (h : vectorizeTexts 5000 2 (texts.map (preprocessText stopWords)) = .error msg) :
    mainModel stopWords (some texts) = .crashed msg [.loadData, .preprocessStage] ∧
    PipelineStage.lsiStage ∉ (mainModel stopWords (some texts)).stagesOf ∧
    PipelineStage.clusteringStage ∉ (mainModel stopWords (some texts)).stagesOf := by
  have hm : mainModel stopWords (some texts) = .crashed msg [.loadData, .preprocessStage] := by
    simp [mainModel, h]
  refine ⟨hm, ?_, ?_⟩ <;> rw [hm] <;> simp [RunOutcome.stagesOf]

/-- Witness for C4 at the one-document corpus whose term is pruned. -/
theorem empty_fit_terminates_witness :
    (vectorizeTexts 5000 2 ((["abc"] : List String).map (preprocessText [])) =
      .error "After pruning, no terms remain. Try a lower min_df or a higher max_df.") ∧
    (mainModel [] (some ["abc"]) =
        .crashed "After pruning, no terms remain. Try a lower min_df or a higher max_df."
          [.loadData, .preprocessStage] ∧
      PipelineStage.lsiStage ∉ (mainModel [] (some ["abc"])).stagesOf ∧
      PipelineStage.clusteringStage ∉ (mainModel [] (some ["abc"])).stagesOf) := by
  have h : vectorizeTexts 5000 2 ((["abc"] : List String).map (preprocessText [])) =
      .error "After pruning, no terms remain. Try a lower min_df or a higher max_df." := rfl
  exact ⟨h, empty_fit_terminates_run [] ["abc"] _ h⟩

end BigData

